import Mathlib

/-
Verification of the cloud resource counter wrappers (AWS EC2 / RDS /
Security Groups, Azure VM / SQL / NSG).

Each Python class wraps one provider client, and exposes three operations:
a count of the listed resources, an aggregation of their tag key/value
pairs into a mapping from key to the ordered list of values, and a status
probe.  Every operation catches all provider faults, prints one diagnostic
and returns None.

The shallow embedding below models a provider call as an `Except Err`
value stored in a client structure (one field per distinct remote call the
class makes), and each operation as a pure function of the client that
returns the operation result together with the list of diagnostics it
printed.  Python's `defaultdict(list)` with per-key append is modelled by
an insertion-ordered association list (`addTag` / `aggregatePairs`),
which matches dict semantics: first occurrence of a key fixes its
position, later values for the same key are appended to its list.
-/

namespace CloudCounters

/-- Provider fault carried by a failed call (the exception's message). -/
abbrev Err := String

/-- Diagnostic line printed by the catch-all handler, `print(f"An error occurred: {e}")`. -/
def errMsg (e : Err) : String := "An error occurred: " ++ e

/-- AWS tag pair, the dict with the `Key` and `Value` entries of the AWS responses. -/
structure AwsTag where
  Key : String
  Value : String

/-- Projection of an AWS tag list to plain key/value pairs. -/
def tagPairs (tags : List AwsTag) : List (String × String) :=
  tags.map (fun t => (t.Key, t.Value))

/-! ### The aggregation dictionary

`addTag m k v` is one execution of `aggregated_tags[k].append(v)` on a
`defaultdict(list)` whose current items (in insertion order) are `m`:
if `k` is already a key, `v` is appended to its list, otherwise the entry
`(k, [v])` is appended at the end. -/

def addTag : List (String × List String) → String → String → List (String × List String)
  | [], k, v => [(k, [v])]
  | e :: rest, k, v =>
      if e.1 = k then (e.1, e.2 ++ [v]) :: rest else e :: addTag rest k v

/-- Append every pair of `ps` into the dictionary `m`, in order. -/
def foldPairs (m : List (String × List String)) (ps : List (String × String)) :
    List (String × List String) :=
  ps.foldl (fun a p => addTag a p.1 p.2) m

/-- The aggregation loop run from the empty dictionary. -/
def aggregatePairs (ps : List (String × String)) : List (String × List String) :=
  foldPairs [] ps

/-- Dictionary lookup (Python `m[k]` on the unique entry with key `k`). -/
def lookupAgg (k : String) (m : List (String × List String)) : Option (List String) :=
  (m.find? (fun e => e.1 == k)).map (·.2)

/-- The values attached to key `k` across the pair list `ps`, in order. -/
def valuesFor (k : String) (ps : List (String × String)) : List String :=
  (ps.filter (fun p => p.1 == k)).map (·.2)

/-- Total number of values stored in the dictionary. -/
def sumLens (m : List (String × List String)) : Nat :=
  (m.map (fun e => e.2.length)).sum

/-- Combine an existing lookup result with further values appended for that key. -/
def optJoin : Option (List String) → List String → Option (List String)
  | none, [] => none
  | none, l => some l
  | some vs, l => some (vs ++ l)

/-! ### AWS EC2 (`aws_ec2.py`, class `EC2InstanceCounter`) -/

/-- One EC2 instance of a `describe_instances` response; the `Tags` key may be absent. -/
structure Ec2Instance where
  Tags : Option (List AwsTag)

/-- One reservation of a `describe_instances` response. -/
structure Reservation where
  Instances : List Ec2Instance

/-- Shape of the `describe_instances` response. -/
structure DescribeInstancesResponse where
  Reservations : List Reservation

/-- Shape of the `describe_account_attributes` response. -/
structure DescribeAccountAttributesResponse where
  AccountAttributes : List String

/-- The boto3 EC2 client, one field per remote call the class makes. -/
structure EC2Client where
  describe_instances : Except Err DescribeInstancesResponse
  describe_account_attributes : List String → Except Err DescribeAccountAttributesResponse

namespace EC2

/-- All instances of the response, reservations flattened in order. -/
def flattenInstances (r : DescribeInstancesResponse) : List Ec2Instance :=
  (r.Reservations.map (·.Instances)).flatten

/-- Key/value pairs of one instance; an instance without a `Tags` key yields none. -/
def instancePairs (i : Ec2Instance) : List (String × String) :=
  match i.Tags with
  | some tags => tagPairs tags
  | none => []

/-- All tag key/value pairs of the response, in traversal order. -/
def responsePairs (r : DescribeInstancesResponse) : List (String × String) :=
  ((flattenInstances r).map instancePairs).flatten

/-- Embedding of `EC2InstanceCounter.get_count`. -/
def get_count (c : EC2Client) : Option Nat × List String :=
  match c.describe_instances with
  | .ok response =>
      (some ((response.Reservations.map (fun r => r.Instances.length)).sum), [])
  | .error e => (none, [errMsg e])

/-- Embedding of `EC2InstanceCounter.get_aggregated_tags`: the nested loops over
reservations, instances and tags, appending into the defaultdict. -/
def get_aggregated_tags (c : EC2Client) :
    Option (List (String × List String)) × List String :=
  match c.describe_instances with
  | .ok response =>
      (some (response.Reservations.foldl (fun acc r =>
        r.Instances.foldl (fun acc i =>
          match i.Tags with
          | some tags => tags.foldl (fun a t => addTag a t.Key t.Value) acc
          | none => acc) acc) []), [])
  | .error e => (none, [errMsg e])

/-- Fixed operational message of `EC2InstanceCounter.get_status`. -/
def ec2OperationalMsg : String := "EC2 Service is operational."

/-- Embedding of `EC2InstanceCounter.get_status`: probes
`describe_account_attributes(AttributeNames=['maxInstances'])`, not the
`describe_instances` call used by the count. -/
def get_status (c : EC2Client) : Option String × List String :=
  match c.describe_account_attributes ["maxInstances"] with
  | .ok response =>
      if !response.AccountAttributes.isEmpty then (some ec2OperationalMsg, [])
      else (none, [])
  | .error e => (none, [errMsg e])

end EC2

/-! ### AWS RDS (`aws_rds.py`, class `RDSInstanceCounter`) -/

/-- One DB instance of a `describe_db_instances` response.  The provider's
response carries an inlined `TagList` alongside the ARN; the code reads only
`DBInstanceArn`, so the field is kept to express that it is ignored. -/
structure RdsInstance where
  DBInstanceArn : String
  TagList : Option (List AwsTag)

/-- Shape of the `describe_db_instances` response. -/
structure DescribeDBInstancesResponse where
  DBInstances : List RdsInstance

/-- Shape of a `list_tags_for_resource` response; the `TagList` key may be absent. -/
structure ListTagsResponse where
  TagList : Option (List AwsTag)

/-- Shape of the `describe_orderable_db_instance_options` response. -/
structure OrderableOptionsResponse where
  OrderableDBInstanceOptions : List String

/-- The boto3 RDS client; `list_tags_for_resource` is keyed by the ResourceName ARN. -/
structure RDSClient where
  describe_db_instances : Except Err DescribeDBInstancesResponse
  list_tags_for_resource : String → Except Err ListTagsResponse
  describe_orderable_db_instance_options : Except Err OrderableOptionsResponse

namespace RDS

/-- Outcome of `RDSInstanceCounter.get_aggregated_rds_tags`, together with the
trace of ARNs passed to `list_tags_for_resource`, in call order. -/
structure RdsAggResult where
  result : Option (List (String × List String))
  diagnostics : List String
  tagCalls : List String

/-- The per-instance loop of `get_aggregated_rds_tags`: one
`list_tags_for_resource(ResourceName=arn)` call per DB instance, aggregating
each response's `TagList` into the dictionary; a failing call aborts the loop
with the fault.  The third component records the ARNs queried. -/
def rdsTagLoop (tagsFor : String → Except Err ListTagsResponse) :
    List RdsInstance → List (String × List String) → List String →
      Except Err (List (String × List String)) × List String
  | [], acc, calls => (.ok acc, calls)
  | inst :: rest, acc, calls =>
      match tagsFor inst.DBInstanceArn with
      | .ok tr =>
          let acc' := match tr.TagList with
            | some tags => tags.foldl (fun a t => addTag a t.Key t.Value) acc
            | none => acc
          rdsTagLoop tagsFor rest acc' (calls ++ [inst.DBInstanceArn])
      | .error e => (.error e, calls ++ [inst.DBInstanceArn])

/-- Embedding of `RDSInstanceCounter.get_rds_instance_count`. -/
def get_rds_instance_count (c : RDSClient) : Option Nat × List String :=
  match c.describe_db_instances with
  | .ok response => (some response.DBInstances.length, [])
  | .error e => (none, [errMsg e])

/-- Embedding of `RDSInstanceCounter.get_aggregated_rds_tags`. -/
def get_aggregated_rds_tags (c : RDSClient) : RdsAggResult :=
  match c.describe_db_instances with
  | .ok response =>
      match rdsTagLoop c.list_tags_for_resource response.DBInstances [] [] with
      | (.ok acc, calls) => ⟨some acc, [], calls⟩
      | (.error e, calls) => ⟨none, [errMsg e], calls⟩
  | .error e => ⟨none, [errMsg e], []⟩

/-- Fixed operational message of `RDSInstanceCounter.get_rds_status`. -/
def rdsOperationalMsg : String := "RDS Service is operational."

/-- Embedding of `RDSInstanceCounter.get_rds_status`: probes
`describe_orderable_db_instance_options`, not the `describe_db_instances`
call used by the count. -/
def get_rds_status (c : RDSClient) : Option String × List String :=
  match c.describe_orderable_db_instance_options with
  | .ok response =>
      if !response.OrderableDBInstanceOptions.isEmpty then (some rdsOperationalMsg, [])
      else (none, [])
  | .error e => (none, [errMsg e])

end RDS

/-! ### AWS security groups (`aws_sg.py`, class `EC2SecurityGroupCounter`) -/

/-- One security group of a `describe_security_groups` response; `Tags` may be absent. -/
structure SecurityGroup where
  Tags : Option (List AwsTag)

/-- Shape of the `describe_security_groups` response. -/
structure DescribeSecurityGroupsResponse where
  SecurityGroups : List SecurityGroup

/-- The boto3 EC2 client as used by `EC2SecurityGroupCounter`: all three
operations issue the same `describe_security_groups` call. -/
structure SGClient where
  describe_security_groups : Except Err DescribeSecurityGroupsResponse

namespace SG

/-- Key/value pairs of one security group. -/
def sgPairs (g : SecurityGroup) : List (String × String) :=
  match g.Tags with
  | some tags => tagPairs tags
  | none => []

/-- All tag key/value pairs of the response, in traversal order. -/
def responseSgPairs (r : DescribeSecurityGroupsResponse) : List (String × String) :=
  (r.SecurityGroups.map sgPairs).flatten

/-- Embedding of `EC2SecurityGroupCounter.get_security_group_count`. -/
def get_security_group_count (c : SGClient) : Option Nat × List String :=
  match c.describe_security_groups with
  | .ok response => (some response.SecurityGroups.length, [])
  | .error e => (none, [errMsg e])

/-- Embedding of `EC2SecurityGroupCounter.get_aggregated_sg_tags`. -/
def get_aggregated_sg_tags (c : SGClient) :
    Option (List (String × List String)) × List String :=
  match c.describe_security_groups with
  | .ok response =>
      (some (response.SecurityGroups.foldl (fun acc g =>
        match g.Tags with
        | some tags => tags.foldl (fun a t => addTag a t.Key t.Value) acc
        | none => acc) []), [])
  | .error e => (none, [errMsg e])

/-- Fixed operational message of `EC2SecurityGroupCounter.get_sg_status`. -/
def sgOperationalMsg : String := "Security Groups Service is operational."

/-- Embedding of `EC2SecurityGroupCounter.get_sg_status`: reuses the
`describe_security_groups` call of the count. -/
def get_sg_status (c : SGClient) : Option String × List String :=
  match c.describe_security_groups with
  | .ok response =>
      if !response.SecurityGroups.isEmpty then (some sgOperationalMsg, [])
      else (none, [])
  | .error e => (none, [errMsg e])

end SG

/-! ### Azure components (`azure_vm.py`, `azure_sql.py`, `azure_nsg.py`)

An Azure resource object carries a `tags` attribute that is either `None` or a
dict; Python dicts preserve insertion order, so the dict is modelled as an
ordered list of key/value pairs.  `if resource.tags:` is dict truthiness:
false for `None` and for the empty dict. -/

/-- An Azure resource as consumed by the three counters: only its `tags`. -/
structure AzResource where
  tags : Option (List (String × String))

/-- Python truthiness of the `tags` attribute (`if vm.tags:`). -/
def azTagsTruthy : Option (List (String × String)) → Bool
  | none => false
  | some l => !l.isEmpty

/-- The pairs a resource contributes when iterated (`for key, value in r.tags.items()`). -/
def azResourcePairs (r : AzResource) : List (String × String) :=
  match r.tags with
  | some l => l
  | none => []

/-- All tag key/value pairs across the listed resources, in traversal order. -/
def azPairs (rs : List AzResource) : List (String × String) :=
  (rs.map azResourcePairs).flatten

/-- Embedding of `sum(1 for _ in items)`. -/
def azCount (rs : List AzResource) : Nat :=
  rs.foldl (fun n _ => n + 1) 0

/-- Embedding of `any(True for _ in items)`. -/
def azAnyItem (rs : List AzResource) : Bool :=
  rs.any (fun _ => true)

/-- The aggregation loop shared by the three Azure counters: skip resources
whose `tags` attribute is falsy, append every key/value pair otherwise. -/
def azAggregate (rs : List AzResource) : List (String × List String) :=
  rs.foldl (fun acc r =>
    if azTagsTruthy r.tags then
      (azResourcePairs r).foldl (fun a p => addTag a p.1 p.2) acc
    else acc) []

/-! #### Azure VM (`AzureVMCounter`) -/

/-- The `ComputeManagementClient` as used: one `virtual_machines.list_all` call. -/
structure AzureVMClient where
  list_all : Except Err (List AzResource)

namespace AzureVM

/-- Embedding of `AzureVMCounter.get_vm_count`. -/
def get_vm_count (c : AzureVMClient) : Option Nat × List String :=
  match c.list_all with
  | .ok vms => (some (azCount vms), [])
  | .error e => (none, [errMsg e])

/-- Embedding of `AzureVMCounter.get_aggregated_vm_tags`. -/
def get_aggregated_vm_tags (c : AzureVMClient) :
    Option (List (String × List String)) × List String :=
  match c.list_all with
  | .ok vms => (some (azAggregate vms), [])
  | .error e => (none, [errMsg e])

/-- Fixed operational message of `AzureVMCounter.get_vm_status`. -/
def vmOperationalMsg : String := "Azure VM Service is operational."

/-- Embedding of `AzureVMCounter.get_vm_status`: reuses the `list_all` call. -/
def get_vm_status (c : AzureVMClient) : Option String × List String :=
  match c.list_all with
  | .ok vms => if azAnyItem vms then (some vmOperationalMsg, []) else (none, [])
  | .error e => (none, [errMsg e])

end AzureVM

/-! #### Azure SQL (`AzureSQLDBCounter`) -/

/-- The `SqlManagementClient` as used: one `databases.list` call. -/
structure AzureSQLClient where
  list : Except Err (List AzResource)

namespace AzureSQL

/-- Embedding of `AzureSQLDBCounter.get_count`. -/
def get_count (c : AzureSQLClient) : Option Nat × List String :=
  match c.list with
  | .ok dbs => (some (azCount dbs), [])
  | .error e => (none, [errMsg e])

/-- Embedding of `AzureSQLDBCounter.get_aggregated_tags`. -/
def get_aggregated_tags (c : AzureSQLClient) :
    Option (List (String × List String)) × List String :=
  match c.list with
  | .ok dbs => (some (azAggregate dbs), [])
  | .error e => (none, [errMsg e])

/-- Fixed operational message of `AzureSQLDBCounter.get_status`. -/
def sqlOperationalMsg : String := "Azure SQL Database Service is operational."

/-- Embedding of `AzureSQLDBCounter.get_status`: reuses the `list` call. -/
def get_status (c : AzureSQLClient) : Option String × List String :=
  match c.list with
  | .ok dbs => if azAnyItem dbs then (some sqlOperationalMsg, []) else (none, [])
  | .error e => (none, [errMsg e])

end AzureSQL

/-! #### Azure NSG (`AzureNSGCounter`) -/

/-- The `NetworkManagementClient` as used: one `network_security_groups.list_all` call. -/
structure AzureNSGClient where
  list_all : Except Err (List AzResource)

namespace AzureNSG

/-- Embedding of `AzureNSGCounter.get_nsg_count`. -/
def get_nsg_count (c : AzureNSGClient) : Option Nat × List String :=
  match c.list_all with
  | .ok nsgs => (some (azCount nsgs), [])
  | .error e => (none, [errMsg e])

/-- Embedding of `AzureNSGCounter.get_aggregated_nsg_tags`. -/
def get_aggregated_nsg_tags (c : AzureNSGClient) :
    Option (List (String × List String)) × List String :=
  match c.list_all with
  | .ok nsgs => (some (azAggregate nsgs), [])
  | .error e => (none, [errMsg e])

/-- Fixed operational message of `AzureNSGCounter.get_nsg_status`. -/
def nsgOperationalMsg : String := "Azure NSG Service is operational."

/-- Embedding of `AzureNSGCounter.get_nsg_status`: reuses the `list_all` call. -/
def get_nsg_status (c : AzureNSGClient) : Option String × List String :=
  match c.list_all with
  | .ok nsgs => if azAnyItem nsgs then (some nsgOperationalMsg, []) else (none, [])
  | .error e => (none, [errMsg e])

end AzureNSG

/-! ### Auxiliary definitions used by individual claims -/

/-- Pairs contributed by one `list_tags_for_resource` response. -/
def rdsTagsOf (tr : ListTagsResponse) : List (String × String) :=
  match tr.TagList with
  | some tags => tagPairs tags
  | none => []

/-- Pairs collected by the RDS loop when every tag call returns `f arn`. -/
def rdsPairsOf (l : List RdsInstance) (f : String → ListTagsResponse) :
    List (String × String) :=
  (l.map (fun i => rdsTagsOf (f i.DBInstanceArn))).flatten

/-- Replace each EC2 instance's tag collection through `g`, keeping the shape. -/
def retagEc2 (g : Option (List AwsTag) → Option (List AwsTag))
    (r : DescribeInstancesResponse) : DescribeInstancesResponse :=
  ⟨r.Reservations.map (fun rr => ⟨rr.Instances.map (fun i => ⟨g i.Tags⟩)⟩)⟩

/-- Replace each DB instance's inlined `TagList` through `g`, keeping the ARNs. -/
def retagRds (g : Option (List AwsTag) → Option (List AwsTag))
    (r : DescribeDBInstancesResponse) : DescribeDBInstancesResponse :=
  ⟨r.DBInstances.map (fun i => ⟨i.DBInstanceArn, g i.TagList⟩)⟩

/-- Response used to refute claim C2: one reservation holding one instance. -/
def statusCexResponse : DescribeInstancesResponse := ⟨[⟨[⟨none⟩]⟩]⟩

/-- Client used to refute claim C2: the count call returns one instance while
the account-attributes probe returns an empty attribute list. -/
def statusCexClient : EC2Client := ⟨.ok statusCexResponse, fun _ => .ok ⟨[]⟩⟩

/-- Security-group response with two distinct groups carrying the same tag pair. -/
def dupSgResponse : DescribeSecurityGroupsResponse :=
  ⟨[⟨some [⟨"env", "prod"⟩]⟩, ⟨some [⟨"env", "prod"⟩]⟩]⟩

/-- Two Azure NSG resources carrying the same tag pair. -/
def dupNsgList : List AzResource :=
  [⟨some [("env", "prod")]⟩, ⟨some [("env", "prod")]⟩]

/-! ### Properties of the aggregation dictionary -/

theorem lookupAgg_addTag_self (m : List (String × List String)) (k v : String) :
    lookupAgg k (addTag m k v) = some ((lookupAgg k m).getD [] ++ [v]) := by
  induction m with
  | nil => simp [addTag, lookupAgg]
  | cons e rest ih =>
      by_cases h : e.1 = k
      · simp [addTag, lookupAgg, h, List.find?]
      · have hb : (e.1 == k) = false := by simp [h]
        simp [addTag, lookupAgg, h, List.find?, hb] at ih ⊢
        exact ih

theorem lookupAgg_addTag_ne (m : List (String × List String)) (k k' v : String)
    (h : k' ≠ k) : lookupAgg k' (addTag m k v) = lookupAgg k' m := by
  have hkk : (k == k') = false := beq_eq_false_iff_ne.mpr (Ne.symm h)
  induction m with
  | nil => simp [addTag, lookupAgg, List.find?, hkk]
  | cons e rest ih =>
      by_cases he : e.1 = k
      · have hb : (e.1 == k') = false := he ▸ hkk
        simp [addTag, lookupAgg, he, List.find?, hb, hkk]
      · by_cases he' : e.1 = k'
        · simp [addTag, lookupAgg, he, he', h, List.find?]
        · have hb : (e.1 == k') = false := beq_eq_false_iff_ne.mpr he'
          simp [addTag, lookupAgg, he, List.find?, hb, hkk] at ih ⊢
          exact ih

theorem optJoin_none (l : List String) :
    optJoin none l = if l = [] then none else some l := by
  cases l <;> simp [optJoin]

theorem optJoin_some (vs l : List String) : optJoin (some vs) l = some (vs ++ l) := by
  cases l <;> simp [optJoin]

theorem lookupAgg_foldPairs (ps : List (String × String)) :
    ∀ (m : List (String × List String)) (k : String),
      lookupAgg k (foldPairs m ps) = optJoin (lookupAgg k m) (valuesFor k ps) := by
  induction ps with
  | nil =>
      intro m k
      cases h : lookupAgg k m <;> simp [foldPairs, valuesFor, optJoin, h]
  | cons p rest ih =>
      intro m k
      have hstep : foldPairs m (p :: rest) = foldPairs (addTag m p.1 p.2) rest := rfl
      rw [hstep, ih]
      by_cases hk : p.1 = k
      · have hv : valuesFor k (p :: rest) = p.2 :: valuesFor k rest := by
          simp [valuesFor, hk]
        subst hk
        rw [hv, lookupAgg_addTag_self, optJoin_some]
        cases h : lookupAgg p.1 m
        · simp [h, optJoin_none]
        · simp [h, optJoin_some]
      · have hv : valuesFor k (p :: rest) = valuesFor k rest := by
          simp [valuesFor, hk]
        rw [hv, lookupAgg_addTag_ne m p.1 k p.2 (fun h => hk h.symm)]

theorem lookupAgg_aggregatePairs (ps : List (String × String)) (k : String) :
    lookupAgg k (aggregatePairs ps) =
      if valuesFor k ps = [] then none else some (valuesFor k ps) := by
  have h0 : lookupAgg k ([] : List (String × List String)) = none := by
    simp [lookupAgg]
  rw [aggregatePairs, lookupAgg_foldPairs, h0, optJoin_none]

theorem lookupAgg_eq_none_iff (m : List (String × List String)) (k : String) :
    lookupAgg k m = none ↔ k ∉ m.map (·.1) := by
  induction m with
  | nil => simp [lookupAgg]
  | cons e rest ih =>
      by_cases he : e.1 = k
      · simp [lookupAgg, List.find?, he]
      · have hb : (e.1 == k) = false := beq_eq_false_iff_ne.mpr he
        simp [lookupAgg, List.find?, hb, he, Ne.symm he] at ih ⊢
        exact ih

theorem valuesFor_eq_nil_iff (ps : List (String × String)) (k : String) :
    valuesFor k ps = [] ↔ k ∉ ps.map (·.1) := by
  induction ps with
  | nil => simp [valuesFor]
  | cons p rest ih =>
      by_cases hp : p.1 = k
      · simp [valuesFor, hp]
      · have hb : (p.1 == k) = false := beq_eq_false_iff_ne.mpr hp
        simp [valuesFor, hb, hp, Ne.symm hp] at ih ⊢
        exact ih

theorem mem_keys_aggregatePairs (ps : List (String × String)) (k : String) :
    k ∈ (aggregatePairs ps).map (·.1) ↔ k ∈ ps.map (·.1) := by
  rw [← not_iff_not, ← lookupAgg_eq_none_iff, ← valuesFor_eq_nil_iff,
    lookupAgg_aggregatePairs]
  by_cases h : valuesFor k ps = [] <;> simp [h]

theorem sumLens_addTag (m : List (String × List String)) (k v : String) :
    sumLens (addTag m k v) = sumLens m + 1 := by
  induction m with
  | nil => simp [addTag, sumLens]
  | cons e rest ih =>
      by_cases he : e.1 = k
      · simp [addTag, sumLens, he]
        omega
      · simp [addTag, sumLens, he] at ih ⊢
        omega

theorem sumLens_foldPairs (ps : List (String × String)) :
    ∀ m : List (String × List String), sumLens (foldPairs m ps) = sumLens m + ps.length := by
  induction ps with
  | nil => intro m; simp [foldPairs]
  | cons p rest ih =>
      intro m
      have hstep : foldPairs m (p :: rest) = foldPairs (addTag m p.1 p.2) rest := rfl
      rw [hstep, ih, sumLens_addTag]
      simp
      omega

theorem sumLens_aggregatePairs (ps : List (String × String)) :
    sumLens (aggregatePairs ps) = ps.length := by
  rw [aggregatePairs, sumLens_foldPairs]
  simp [sumLens]

theorem allNonempty_addTag (m : List (String × List String)) (k v : String)
    (h : m.all (fun e => !e.2.isEmpty) = true) :
    (addTag m k v).all (fun e => !e.2.isEmpty) = true := by
  induction m with
  | nil => simp [addTag]
  | cons e rest ih =>
      simp at h
      by_cases he : e.1 = k
      · simp [addTag, he]
        exact h.2
      · simp [addTag, he]
        refine ⟨h.1, ?_⟩
        have := ih (by simp; exact h.2)
        simp at this
        exact this

theorem allNonempty_foldPairs (ps : List (String × String)) :
    ∀ m : List (String × List String), m.all (fun e => !e.2.isEmpty) = true →
      (foldPairs m ps).all (fun e => !e.2.isEmpty) = true := by
  induction ps with
  | nil => intro m h; exact h
  | cons p rest ih =>
      intro m h
      exact ih (addTag m p.1 p.2) (allNonempty_addTag m p.1 p.2 h)

theorem allNonempty_aggregatePairs (ps : List (String × String)) :
    (aggregatePairs ps).all (fun e => !e.2.isEmpty) = true :=
  allNonempty_foldPairs ps [] (by simp)

theorem foldPairs_append (m : List (String × List String))
    (l₁ l₂ : List (String × String)) :
    foldPairs m (l₁ ++ l₂) = foldPairs (foldPairs m l₁) l₂ := by
  simp [foldPairs, List.foldl_append]

/-! ### Bridge lemmas: each success path computes `aggregatePairs` of the
traversal-order pair list. -/

theorem foldl_tags_eq_foldPairs (tags : List AwsTag) (acc : List (String × List String)) :
    tags.foldl (fun a t => addTag a t.Key t.Value) acc = foldPairs acc (tagPairs tags) := by
  simp [foldPairs, tagPairs, List.foldl_map]

theorem ec2_inner_foldl (is : List Ec2Instance) :
    ∀ acc : List (String × List String),
      is.foldl (fun acc i =>
          match i.Tags with
          | some tags => tags.foldl (fun a t => addTag a t.Key t.Value) acc
          | none => acc) acc
        = foldPairs acc ((is.map EC2.instancePairs).flatten) := by
  induction is with
  | nil => intro acc; simp [foldPairs]
  | cons i rest ih =>
      intro acc
      rw [List.foldl_cons, ih, List.map_cons, List.flatten_cons, foldPairs_append]
      cases hi : i.Tags with
      | some tags => simp [hi, EC2.instancePairs, foldl_tags_eq_foldPairs]
      | none => simp [hi, EC2.instancePairs, foldPairs]

theorem ec2_outer_foldl (rsv : List Reservation) :
    ∀ acc : List (String × List String),
      rsv.foldl (fun acc r =>
          r.Instances.foldl (fun acc i =>
            match i.Tags with
            | some tags => tags.foldl (fun a t => addTag a t.Key t.Value) acc
            | none => acc) acc) acc
        = foldPairs acc ((rsv.map (fun r => (r.Instances.map EC2.instancePairs).flatten)).flatten) := by
  induction rsv with
  | nil => intro acc; simp [foldPairs]
  | cons r rest ih =>
      intro acc
      rw [List.foldl_cons, ec2_inner_foldl, ih, List.map_cons, List.flatten_cons,
        foldPairs_append]

theorem ec2_responsePairs_eq (r : DescribeInstancesResponse) :
    EC2.responsePairs r
      = ((r.Reservations.map (fun rr => (rr.Instances.map EC2.instancePairs).flatten)).flatten) := by
  unfold EC2.responsePairs EC2.flattenInstances
  rw [List.map_flatten, List.flatten_flatten, List.map_map, List.map_map]
  rfl

theorem ec2_agg_ok (r : DescribeInstancesResponse)
    (f : List String → Except Err DescribeAccountAttributesResponse) :
    EC2.get_aggregated_tags ⟨.ok r, f⟩
      = (some (aggregatePairs (EC2.responsePairs r)), []) := by
  simp [EC2.get_aggregated_tags, aggregatePairs, ec2_outer_foldl, ec2_responsePairs_eq]

theorem sg_agg_foldl (gs : List SecurityGroup) :
    ∀ acc : List (String × List String),
      gs.foldl (fun acc g =>
          match g.Tags with
          | some tags => tags.foldl (fun a t => addTag a t.Key t.Value) acc
          | none => acc) acc
        = foldPairs acc ((gs.map SG.sgPairs).flatten) := by
  induction gs with
  | nil => intro acc; simp [foldPairs]
  | cons g rest ih =>
      intro acc
      rw [List.foldl_cons, ih, List.map_cons, List.flatten_cons, foldPairs_append]
      cases hg : g.Tags with
      | some tags => simp [hg, SG.sgPairs, foldl_tags_eq_foldPairs]
      | none => simp [hg, SG.sgPairs, foldPairs]

theorem sg_agg_ok (r : DescribeSecurityGroupsResponse) :
    SG.get_aggregated_sg_tags ⟨.ok r⟩
      = (some (aggregatePairs (SG.responseSgPairs r)), []) := by
  simp [SG.get_aggregated_sg_tags, aggregatePairs, sg_agg_foldl, SG.responseSgPairs]

theorem azAggregate_step (r : AzResource) (acc : List (String × List String)) :
    (if azTagsTruthy r.tags then
        (azResourcePairs r).foldl (fun a p => addTag a p.1 p.2) acc
      else acc)
      = foldPairs acc (azResourcePairs r) := by
  cases hr : r.tags with
  | none => simp [azTagsTruthy, azResourcePairs, hr, foldPairs]
  | some l =>
      cases l with
      | nil => simp [azTagsTruthy, azResourcePairs, hr, foldPairs]
      | cons p rest => simp [azTagsTruthy, azResourcePairs, hr, foldPairs]

theorem azAggregate_foldl (rs : List AzResource) :
    ∀ acc : List (String × List String),
      rs.foldl (fun acc r =>
          if azTagsTruthy r.tags then
            (azResourcePairs r).foldl (fun a p => addTag a p.1 p.2) acc
          else acc) acc
        = foldPairs acc (azPairs rs) := by
  induction rs with
  | nil => intro acc; simp [foldPairs, azPairs]
  | cons r rest ih =>
      intro acc
      rw [List.foldl_cons, ih, azAggregate_step]
      simp [azPairs, foldPairs_append]

theorem azAggregate_eq (rs : List AzResource) :
    azAggregate rs = aggregatePairs (azPairs rs) := by
  rw [azAggregate, azAggregate_foldl]
  rfl

theorem azCount_eq_length (rs : List AzResource) : azCount rs = rs.length := by
  have h : ∀ (l : List AzResource) (n : Nat), l.foldl (fun a _ => a + 1) n = n + l.length := by
    intro l
    induction l with
    | nil => intro n; simp
    | cons x rest ih => intro n; simp [ih]; omega
  simpa [azCount] using h rs 0

theorem azAnyItem_eq (rs : List AzResource) : azAnyItem rs = !rs.isEmpty := by
  cases rs <;> simp [azAnyItem]

theorem rdsTagLoop_ok (f : String → ListTagsResponse) (l : List RdsInstance) :
    ∀ (acc : List (String × List String)) (calls : List String),
      RDS.rdsTagLoop (fun s => .ok (f s)) l acc calls
        = (.ok (foldPairs acc (rdsPairsOf l f)), calls ++ l.map (·.DBInstanceArn)) := by
  induction l with
  | nil => intro acc calls; simp [RDS.rdsTagLoop, foldPairs, rdsPairsOf]
  | cons inst rest ih =>
      intro acc calls
      rw [RDS.rdsTagLoop]
      simp only []
      rw [ih]
      have hacc : (match (f inst.DBInstanceArn).TagList with
          | some tags => tags.foldl (fun a t => addTag a t.Key t.Value) acc
          | none => acc)
          = foldPairs acc (rdsTagsOf (f inst.DBInstanceArn)) := by
        cases ht : (f inst.DBInstanceArn).TagList with
        | some tags => simp [ht, rdsTagsOf, foldl_tags_eq_foldPairs]
        | none => simp [ht, rdsTagsOf, foldPairs]
      rw [hacc]
      simp [rdsPairsOf, foldPairs_append]

theorem rds_agg_ok (r : DescribeDBInstancesResponse) (f : String → ListTagsResponse)
    (oo : Except Err OrderableOptionsResponse) :
    RDS.get_aggregated_rds_tags ⟨.ok r, fun s => .ok (f s), oo⟩
      = ⟨some (aggregatePairs (rdsPairsOf r.DBInstances f)),
          [], r.DBInstances.map (·.DBInstanceArn)⟩ := by
  simp [RDS.get_aggregated_rds_tags, rdsTagLoop_ok, aggregatePairs]

theorem rdsTagLoop_retag (tf : String → Except Err ListTagsResponse)
    (g : Option (List AwsTag) → Option (List AwsTag)) (l : List RdsInstance) :
    ∀ (acc : List (String × List String)) (calls : List String),
      RDS.rdsTagLoop tf (l.map (fun i => ⟨i.DBInstanceArn, g i.TagList⟩)) acc calls
        = RDS.rdsTagLoop tf l acc calls := by
  induction l with
  | nil => intro acc calls; rfl
  | cons inst rest ih =>
      intro acc calls
      rw [List.map_cons, RDS.rdsTagLoop, RDS.rdsTagLoop]
      cases tf inst.DBInstanceArn with
      | ok tr => simp [ih]
      | error e => rfl

/-! ### The claims -/

/-- Claim C1: on success, every tag aggregation operation returns the
insertion-ordered dictionary of the traversal-order key/value pairs; for that
dictionary, the key set equals the set of tag keys occurring across the
resources, and the list stored under a key `k` is exactly the values attached
under `k` across all resources, in traversal order. -/
theorem C1_tag_aggregation :
    (∀ (r : DescribeInstancesResponse)
        (f : List String → Except Err DescribeAccountAttributesResponse),
      (EC2.get_aggregated_tags ⟨.ok r, f⟩).1 = some (aggregatePairs (EC2.responsePairs r)))
    ∧ (∀ (r : DescribeDBInstancesResponse) (f : String → ListTagsResponse)
        (oo : Except Err OrderableOptionsResponse),
      (RDS.get_aggregated_rds_tags ⟨.ok r, fun s => .ok (f s), oo⟩).result
        = some (aggregatePairs (rdsPairsOf r.DBInstances f)))
    ∧ (∀ r : DescribeSecurityGroupsResponse,
      (SG.get_aggregated_sg_tags ⟨.ok r⟩).1 = some (aggregatePairs (SG.responseSgPairs r)))
    ∧ (∀ rs : List AzResource,
      (AzureVM.get_aggregated_vm_tags ⟨.ok rs⟩).1 = some (aggregatePairs (azPairs rs)))
    ∧ (∀ rs : List AzResource,
      (AzureSQL.get_aggregated_tags ⟨.ok rs⟩).1 = some (aggregatePairs (azPairs rs)))
    ∧ (∀ rs : List AzResource,
      (AzureNSG.get_aggregated_nsg_tags ⟨.ok rs⟩).1 = some (aggregatePairs (azPairs rs)))
    ∧ (∀ (ps : List (String × String)) (k : String),
      lookupAgg k (aggregatePairs ps)
        = if valuesFor k ps = [] then none else some (valuesFor k ps))
    ∧ (∀ (ps : List (String × String)) (k : String),
      k ∈ (aggregatePairs ps).map (·.1) ↔ k ∈ ps.map (·.1)) := by
  refine ⟨fun r f => ?_, fun r f oo => ?_, fun r => ?_, fun rs => ?_, fun rs => ?_,
    fun rs => ?_, lookupAgg_aggregatePairs, mem_keys_aggregatePairs⟩
  · rw [ec2_agg_ok]
  · rw [rds_agg_ok]
  · rw [sg_agg_ok]
  · simp [AzureVM.get_aggregated_vm_tags, azAggregate_eq]
  · simp [AzureSQL.get_aggregated_tags, azAggregate_eq]
  · simp [AzureNSG.get_aggregated_nsg_tags, azAggregate_eq]

/-- Claim C2, counterexample: for EC2, the count call (`describe_instances`)
returns a non-empty result set, yet `get_status` returns the absent value, so
the status operation neither issues the count's call nor reflects its result
set, contrary to the claim. -/
theorem C2_status_counterexample :
    (EC2.get_status statusCexClient).1 = none
    ∧ statusCexClient.describe_instances = .ok statusCexResponse
    ∧ (EC2.flattenInstances statusCexResponse).length = 1 :=
  ⟨rfl, rfl, rfl⟩

/-- Claim C2, amended: for the security-group component and the three Azure
components, the status operation issues the same list call as the count and
returns the fixed operational string iff the result set is non-empty, the
absent value iff it is empty.  For EC2 and RDS, the status operation instead
issues its own service-level probe (`describe_account_attributes` with
`maxInstances`, resp. `describe_orderable_db_instance_options`), ignores the
count's call entirely, and returns the fixed string iff the probe's result set
is non-empty, the absent value iff it is empty. -/
theorem C2_status_amended :
    (∀ (di di' : Except Err DescribeInstancesResponse)
        (f : List String → Except Err DescribeAccountAttributesResponse),
      EC2.get_status ⟨di, f⟩ = EC2.get_status ⟨di', f⟩)
    ∧ (∀ (di : Except Err DescribeInstancesResponse)
        (aa : DescribeAccountAttributesResponse),
      (EC2.get_status ⟨di, fun _ => .ok aa⟩).1
        = if aa.AccountAttributes.isEmpty then none else some EC2.ec2OperationalMsg)
    ∧ (∀ (dd dd' : Except Err DescribeDBInstancesResponse)
        (tf tf' : String → Except Err ListTagsResponse)
        (oo : Except Err OrderableOptionsResponse),
      RDS.get_rds_status ⟨dd, tf, oo⟩ = RDS.get_rds_status ⟨dd', tf', oo⟩)
    ∧ (∀ (dd : Except Err DescribeDBInstancesResponse)
        (tf : String → Except Err ListTagsResponse) (oo : OrderableOptionsResponse),
      (RDS.get_rds_status ⟨dd, tf, .ok oo⟩).1
        = if oo.OrderableDBInstanceOptions.isEmpty then none else some RDS.rdsOperationalMsg)
    ∧ (∀ r : DescribeSecurityGroupsResponse,
      (SG.get_sg_status ⟨.ok r⟩).1
        = if r.SecurityGroups.isEmpty then none else some SG.sgOperationalMsg)
    ∧ (∀ rs : List AzResource,
      (AzureVM.get_vm_status ⟨.ok rs⟩).1
        = if rs.isEmpty then none else some AzureVM.vmOperationalMsg)
    ∧ (∀ rs : List AzResource,
      (AzureSQL.get_status ⟨.ok rs⟩).1
        = if rs.isEmpty then none else some AzureSQL.sqlOperationalMsg)
    ∧ (∀ rs : List AzResource,
      (AzureNSG.get_nsg_status ⟨.ok rs⟩).1
        = if rs.isEmpty then none else some AzureNSG.nsgOperationalMsg) := by
  refine ⟨fun di di' f => rfl, fun di aa => ?_, fun dd dd' tf tf' oo => rfl,
    fun dd tf oo => ?_, fun r => ?_, fun rs => ?_, fun rs => ?_, fun rs => ?_⟩
  · cases h : aa.AccountAttributes.isEmpty <;> simp [EC2.get_status, h]
  · cases h : oo.OrderableDBInstanceOptions.isEmpty <;> simp [RDS.get_rds_status, h]
  · cases h : r.SecurityGroups.isEmpty <;> simp [SG.get_sg_status, h]
  · cases h : rs.isEmpty <;> simp [AzureVM.get_vm_status, azAnyItem_eq, h]
  · cases h : rs.isEmpty <;> simp [AzureSQL.get_status, azAnyItem_eq, h]
  · cases h : rs.isEmpty <;> simp [AzureNSG.get_nsg_status, azAnyItem_eq, h]

/-- Claim C3: when the underlying provider call raises a fault, each of the
eighteen operations (six components, three operations each) catches it,
prints exactly one diagnostic line, and returns the absent value; for RDS tag
aggregation this also holds when a per-instance tag lookup faults mid-loop. -/
theorem C3_faults_absent :
    (∀ (e : Err) (f : List String → Except Err DescribeAccountAttributesResponse),
      EC2.get_count ⟨.error e, f⟩ = (none, [errMsg e])
      ∧ EC2.get_aggregated_tags ⟨.error e, f⟩ = (none, [errMsg e]))
    ∧ (∀ (e : Err) (di : Except Err DescribeInstancesResponse),
      EC2.get_status ⟨di, fun _ => .error e⟩ = (none, [errMsg e]))
    ∧ (∀ (e : Err) (tf : String → Except Err ListTagsResponse)
        (oo : Except Err OrderableOptionsResponse),
      RDS.get_rds_instance_count ⟨.error e, tf, oo⟩ = (none, [errMsg e])
      ∧ RDS.get_aggregated_rds_tags ⟨.error e, tf, oo⟩ = ⟨none, [errMsg e], []⟩)
    ∧ (∀ (e : Err) (arn : String) (tl : Option (List AwsTag)) (rest : List RdsInstance)
        (oo : Except Err OrderableOptionsResponse),
      RDS.get_aggregated_rds_tags ⟨.ok ⟨⟨arn, tl⟩ :: rest⟩, fun _ => .error e, oo⟩
        = ⟨none, [errMsg e], [arn]⟩)
    ∧ (∀ (e : Err) (dd : Except Err DescribeDBInstancesResponse)
        (tf : String → Except Err ListTagsResponse),
      RDS.get_rds_status ⟨dd, tf, .error e⟩ = (none, [errMsg e]))
    ∧ (∀ e : Err,
      SG.get_security_group_count ⟨.error e⟩ = (none, [errMsg e])
      ∧ SG.get_aggregated_sg_tags ⟨.error e⟩ = (none, [errMsg e])
      ∧ SG.get_sg_status ⟨.error e⟩ = (none, [errMsg e]))
    ∧ (∀ e : Err,
      AzureVM.get_vm_count ⟨.error e⟩ = (none, [errMsg e])
      ∧ AzureVM.get_aggregated_vm_tags ⟨.error e⟩ = (none, [errMsg e])
      ∧ AzureVM.get_vm_status ⟨.error e⟩ = (none, [errMsg e]))
    ∧ (∀ e : Err,
      AzureSQL.get_count ⟨.error e⟩ = (none, [errMsg e])
      ∧ AzureSQL.get_aggregated_tags ⟨.error e⟩ = (none, [errMsg e])
      ∧ AzureSQL.get_status ⟨.error e⟩ = (none, [errMsg e]))
    ∧ (∀ e : Err,
      AzureNSG.get_nsg_count ⟨.error e⟩ = (none, [errMsg e])
      ∧ AzureNSG.get_aggregated_nsg_tags ⟨.error e⟩ = (none, [errMsg e])
      ∧ AzureNSG.get_nsg_status ⟨.error e⟩ = (none, [errMsg e])) :=
  ⟨fun _ _ => ⟨rfl, rfl⟩, fun _ _ => rfl, fun _ _ _ => ⟨rfl, rfl⟩,
    fun _ _ _ _ _ => rfl, fun _ _ _ => rfl,
    fun _ => ⟨rfl, rfl, rfl⟩, fun _ => ⟨rfl, rfl, rfl⟩,
    fun _ => ⟨rfl, rfl, rfl⟩, fun _ => ⟨rfl, rfl, rfl⟩⟩

/-- Claim C4: on success, every count operation returns the total number of
listed resources, independently of their tag content; for EC2 this number is
the length of the instance list obtained by flattening the reservations. -/
theorem C4_count_correct :
    (∀ (r : DescribeInstancesResponse)
        (f : List String → Except Err DescribeAccountAttributesResponse),
      (EC2.get_count ⟨.ok r, f⟩).1 = some (EC2.flattenInstances r).length)
    ∧ (∀ (r : DescribeInstancesResponse) (g : Option (List AwsTag) → Option (List AwsTag))
        (f : List String → Except Err DescribeAccountAttributesResponse),
      EC2.get_count ⟨.ok (retagEc2 g r), f⟩ = EC2.get_count ⟨.ok r, f⟩)
    ∧ (∀ (r : DescribeDBInstancesResponse) (tf : String → Except Err ListTagsResponse)
        (oo : Except Err OrderableOptionsResponse),
      (RDS.get_rds_instance_count ⟨.ok r, tf, oo⟩).1 = some r.DBInstances.length)
    ∧ (∀ r : DescribeSecurityGroupsResponse,
      (SG.get_security_group_count ⟨.ok r⟩).1 = some r.SecurityGroups.length)
    ∧ (∀ rs : List AzResource, (AzureVM.get_vm_count ⟨.ok rs⟩).1 = some rs.length)
    ∧ (∀ rs : List AzResource, (AzureSQL.get_count ⟨.ok rs⟩).1 = some rs.length)
    ∧ (∀ rs : List AzResource, (AzureNSG.get_nsg_count ⟨.ok rs⟩).1 = some rs.length)
    ∧ (∀ (rs : List AzResource)
        (g : Option (List (String × String)) → Option (List (String × String))),
      AzureVM.get_vm_count ⟨.ok (rs.map (fun x => ⟨g x.tags⟩))⟩
        = AzureVM.get_vm_count ⟨.ok rs⟩) := by
  refine ⟨fun r f => ?_, fun r g f => ?_, fun r tf oo => rfl, fun r => rfl,
    fun rs => ?_, fun rs => ?_, fun rs => ?_, fun rs g => ?_⟩
  · simp [EC2.get_count, EC2.flattenInstances, List.length_flatten, List.map_map,
      Function.comp_def]
  · simp [EC2.get_count, retagEc2, List.map_map, Function.comp_def, List.length_map]
  · simp [AzureVM.get_vm_count, azCount_eq_length]
  · simp [AzureSQL.get_count, azCount_eq_length]
  · simp [AzureNSG.get_nsg_count, azCount_eq_length]
  · simp [AzureVM.get_vm_count, azCount_eq_length]

/-- Claim C5: on a successful run, RDS tag aggregation issues exactly one
`list_tags_for_resource` call per DB instance, keyed by that instance's ARN and
in instance order; the aggregated dictionary is built from the pairs of those
per-instance responses; and the result is independent of any tag data inlined
in the `describe_db_instances` response. -/
theorem C5_rds_tag_calls :
    (∀ (r : DescribeDBInstancesResponse) (f : String → ListTagsResponse)
        (oo : Except Err OrderableOptionsResponse),
      (RDS.get_aggregated_rds_tags ⟨.ok r, fun s => .ok (f s), oo⟩).tagCalls
        = r.DBInstances.map (·.DBInstanceArn)
      ∧ (RDS.get_aggregated_rds_tags ⟨.ok r, fun s => .ok (f s), oo⟩).result
        = some (aggregatePairs (rdsPairsOf r.DBInstances f)))
    ∧ (∀ (r : DescribeDBInstancesResponse)
        (g : Option (List AwsTag) → Option (List AwsTag))
        (tf : String → Except Err ListTagsResponse)
        (oo : Except Err OrderableOptionsResponse),
      RDS.get_aggregated_rds_tags ⟨.ok (retagRds g r), tf, oo⟩
        = RDS.get_aggregated_rds_tags ⟨.ok r, tf, oo⟩) := by
  refine ⟨fun r f oo => ?_, fun r g tf oo => ?_⟩
  · rw [rds_agg_ok]
    exact ⟨rfl, rfl⟩
  · simp [RDS.get_aggregated_rds_tags, retagRds, rdsTagLoop_retag]

/-- Claim C6: a count operation yields `some 0` exactly when the provider call
succeeded with an empty resource collection, and a failed call always yields
the absent value (so a failure is never reported as zero). -/
theorem C6_count_zero_iff_empty :
    (∀ c : EC2Client,
      (EC2.get_count c).1 = some 0
        ↔ ∃ r, c.describe_instances = .ok r ∧ EC2.flattenInstances r = [])
    ∧ (∀ (e : Err) (f : List String → Except Err DescribeAccountAttributesResponse),
      (EC2.get_count ⟨.error e, f⟩).1 = none)
    ∧ (∀ c : RDSClient,
      (RDS.get_rds_instance_count c).1 = some 0
        ↔ ∃ r, c.describe_db_instances = .ok r ∧ r.DBInstances = [])
    ∧ (∀ (e : Err) (tf : String → Except Err ListTagsResponse)
        (oo : Except Err OrderableOptionsResponse),
      (RDS.get_rds_instance_count ⟨.error e, tf, oo⟩).1 = none)
    ∧ (∀ c : SGClient,
      (SG.get_security_group_count c).1 = some 0
        ↔ ∃ r, c.describe_security_groups = .ok r ∧ r.SecurityGroups = [])
    ∧ (∀ e : Err, (SG.get_security_group_count ⟨.error e⟩).1 = none)
    ∧ (∀ c : AzureVMClient,
      (AzureVM.get_vm_count c).1 = some 0 ↔ ∃ rs, c.list_all = .ok rs ∧ rs = [])
    ∧ (∀ e : Err, (AzureVM.get_vm_count ⟨.error e⟩).1 = none)
    ∧ (∀ c : AzureSQLClient,
      (AzureSQL.get_count c).1 = some 0 ↔ ∃ rs, c.list = .ok rs ∧ rs = [])
    ∧ (∀ e : Err, (AzureSQL.get_count ⟨.error e⟩).1 = none)
    ∧ (∀ c : AzureNSGClient,
      (AzureNSG.get_nsg_count c).1 = some 0 ↔ ∃ rs, c.list_all = .ok rs ∧ rs = [])
    ∧ (∀ e : Err, (AzureNSG.get_nsg_count ⟨.error e⟩).1 = none) := by
  refine ⟨fun c => ?_, fun e f => rfl, fun c => ?_, fun e tf oo => rfl, fun c => ?_,
    fun e => rfl, fun c => ?_, fun e => rfl, fun c => ?_, fun e => rfl, fun c => ?_,
    fun e => rfl⟩
  · cases h : c.describe_instances with
    | ok r =>
        have hlen : (EC2.flattenInstances r).length
            = (r.Reservations.map (fun rr => rr.Instances.length)).sum := by
          simp [EC2.flattenInstances, List.length_flatten, List.map_map,
            Function.comp_def]
        simp [EC2.get_count, h, ← List.length_eq_zero, hlen]
    | error e => simp [EC2.get_count, h]
  · cases h : c.describe_db_instances with
    | ok r => simp [RDS.get_rds_instance_count, h, ← List.length_eq_zero]
    | error e => simp [RDS.get_rds_instance_count, h]
  · cases h : c.describe_security_groups with
    | ok r => simp [SG.get_security_group_count, h, ← List.length_eq_zero]
    | error e => simp [SG.get_security_group_count, h]
  · cases h : c.list_all with
    | ok rs => simp [AzureVM.get_vm_count, h, azCount_eq_length, ← List.length_eq_zero]
    | error e => simp [AzureVM.get_vm_count, h]
  · cases h : c.list with
    | ok rs => simp [AzureSQL.get_count, h, azCount_eq_length, ← List.length_eq_zero]
    | error e => simp [AzureSQL.get_count, h]
  · cases h : c.list_all with
    | ok rs => simp [AzureNSG.get_nsg_count, h, azCount_eq_length, ← List.length_eq_zero]
    | error e => simp [AzureNSG.get_nsg_count, h]

/-- Claim C7: in the aggregation result, the list stored under a key holds the
values in resource traversal order without deduplication; concretely, two
distinct resources carrying the same key/value pair produce that value twice
under the key. -/
theorem C7_order_duplicates :
    (∀ (r : DescribeSecurityGroupsResponse) (k : String),
      lookupAgg k ((SG.get_aggregated_sg_tags ⟨.ok r⟩).1.getD [])
        = if valuesFor k (SG.responseSgPairs r) = [] then none
          else some (valuesFor k (SG.responseSgPairs r)))
    ∧ (∀ (rs : List AzResource) (k : String),
      lookupAgg k ((AzureNSG.get_aggregated_nsg_tags ⟨.ok rs⟩).1.getD [])
        = if valuesFor k (azPairs rs) = [] then none
          else some (valuesFor k (azPairs rs)))
    ∧ (SG.get_aggregated_sg_tags ⟨.ok dupSgResponse⟩).1 = some [("env", ["prod", "prod"])]
    ∧ (AzureNSG.get_aggregated_nsg_tags ⟨.ok dupNsgList⟩).1
        = some [("env", ["prod", "prod"])] := by
  refine ⟨fun r k => ?_, fun rs k => ?_, ?_, ?_⟩
  · rw [sg_agg_ok]
    simp [lookupAgg_aggregatePairs]
  · simp [AzureNSG.get_aggregated_nsg_tags, azAggregate_eq, lookupAgg_aggregatePairs]
  · rfl
  · rfl

/-- Claim C8: every operation's outcome (value and diagnostics) factors through
the provider responses it reads, so it is a pure function of those responses:
two runs on identical responses return identical results and no other state
can influence the outcome. -/
theorem C8_deterministic :
    (∃ g : Except Err DescribeInstancesResponse → Option Nat × List String,
      ∀ c : EC2Client, EC2.get_count c = g c.describe_instances)
    ∧ (∃ g : Except Err DescribeInstancesResponse →
          Option (List (String × List String)) × List String,
      ∀ c : EC2Client, EC2.get_aggregated_tags c = g c.describe_instances)
    ∧ (∃ g : Except Err DescribeAccountAttributesResponse → Option String × List String,
      ∀ c : EC2Client,
        EC2.get_status c = g (c.describe_account_attributes ["maxInstances"]))
    ∧ (∃ g : Except Err DescribeDBInstancesResponse → Option Nat × List String,
      ∀ c : RDSClient, RDS.get_rds_instance_count c = g c.describe_db_instances)
    ∧ (∃ g : Except Err DescribeDBInstancesResponse →
          (String → Except Err ListTagsResponse) → RDS.RdsAggResult,
      ∀ c : RDSClient,
        RDS.get_aggregated_rds_tags c = g c.describe_db_instances c.list_tags_for_resource)
    ∧ (∃ g : Except Err OrderableOptionsResponse → Option String × List String,
      ∀ c : RDSClient,
        RDS.get_rds_status c = g c.describe_orderable_db_instance_options)
    ∧ (∃ g : Except Err DescribeSecurityGroupsResponse → Option Nat × List String,
      ∀ c : SGClient, SG.get_security_group_count c = g c.describe_security_groups)
    ∧ (∃ g : Except Err DescribeSecurityGroupsResponse →
          Option (List (String × List String)) × List String,
      ∀ c : SGClient, SG.get_aggregated_sg_tags c = g c.describe_security_groups)
    ∧ (∃ g : Except Err DescribeSecurityGroupsResponse → Option String × List String,
      ∀ c : SGClient, SG.get_sg_status c = g c.describe_security_groups)
    ∧ (∃ g : Except Err (List AzResource) → Option Nat × List String,
      ∀ c : AzureVMClient, AzureVM.get_vm_count c = g c.list_all)
    ∧ (∃ g : Except Err (List AzResource) →
          Option (List (String × List String)) × List String,
      ∀ c : AzureVMClient, AzureVM.get_aggregated_vm_tags c = g c.list_all)
    ∧ (∃ g : Except Err (List AzResource) → Option String × List String,
      ∀ c : AzureVMClient, AzureVM.get_vm_status c = g c.list_all)
    ∧ (∃ g : Except Err (List AzResource) → Option Nat × List String,
      ∀ c : AzureSQLClient, AzureSQL.get_count c = g c.list)
    ∧ (∃ g : Except Err (List AzResource) →
          Option (List (String × List String)) × List String,
      ∀ c : AzureSQLClient, AzureSQL.get_aggregated_tags c = g c.list)
    ∧ (∃ g : Except Err (List AzResource) → Option String × List String,
      ∀ c : AzureSQLClient, AzureSQL.get_status c = g c.list)
    ∧ (∃ g : Except Err (List AzResource) → Option Nat × List String,
      ∀ c : AzureNSGClient, AzureNSG.get_nsg_count c = g c.list_all)
    ∧ (∃ g : Except Err (List AzResource) →
          Option (List (String × List String)) × List String,
      ∀ c : AzureNSGClient, AzureNSG.get_aggregated_nsg_tags c = g c.list_all)
    ∧ (∃ g : Except Err (List AzResource) → Option String × List String,
      ∀ c : AzureNSGClient, AzureNSG.get_nsg_status c = g c.list_all) :=
  ⟨⟨fun d => EC2.get_count ⟨d, fun _ => .error ""⟩, fun _ => rfl⟩,
    ⟨fun d => EC2.get_aggregated_tags ⟨d, fun _ => .error ""⟩, fun _ => rfl⟩,
    ⟨fun a => EC2.get_status ⟨.error "", fun _ => a⟩, fun _ => rfl⟩,
    ⟨fun d => RDS.get_rds_instance_count ⟨d, fun _ => .error "", .error ""⟩, fun _ => rfl⟩,
    ⟨fun d t => RDS.get_aggregated_rds_tags ⟨d, t, .error ""⟩, fun _ => rfl⟩,
    ⟨fun a => RDS.get_rds_status ⟨.error "", fun _ => .error "", a⟩, fun _ => rfl⟩,
    ⟨fun d => SG.get_security_group_count ⟨d⟩, fun _ => rfl⟩,
    ⟨fun d => SG.get_aggregated_sg_tags ⟨d⟩, fun _ => rfl⟩,
    ⟨fun d => SG.get_sg_status ⟨d⟩, fun _ => rfl⟩,
    ⟨fun l => AzureVM.get_vm_count ⟨l⟩, fun _ => rfl⟩,
    ⟨fun l => AzureVM.get_aggregated_vm_tags ⟨l⟩, fun _ => rfl⟩,
    ⟨fun l => AzureVM.get_vm_status ⟨l⟩, fun _ => rfl⟩,
    ⟨fun l => AzureSQL.get_count ⟨l⟩, fun _ => rfl⟩,
    ⟨fun l => AzureSQL.get_aggregated_tags ⟨l⟩, fun _ => rfl⟩,
    ⟨fun l => AzureSQL.get_status ⟨l⟩, fun _ => rfl⟩,
    ⟨fun l => AzureNSG.get_nsg_count ⟨l⟩, fun _ => rfl⟩,
    ⟨fun l => AzureNSG.get_aggregated_nsg_tags ⟨l⟩, fun _ => rfl⟩,
    ⟨fun l => AzureNSG.get_nsg_status ⟨l⟩, fun _ => rfl⟩⟩

/-- Claim C9: in every successful aggregation the total number of stored values
equals the total number of key/value tag pairs across the aggregated resources
(each pair contributes exactly one value to exactly one key), and every key of
the dictionary carries a non-empty value list. -/
theorem C9_value_conservation :
    (∀ ps : List (String × String), sumLens (aggregatePairs ps) = ps.length)
    ∧ (∀ ps : List (String × String),
      (aggregatePairs ps).all (fun e => !e.2.isEmpty) = true)
    ∧ (∀ (r : DescribeInstancesResponse)
        (f : List String → Except Err DescribeAccountAttributesResponse),
      sumLens ((EC2.get_aggregated_tags ⟨.ok r, f⟩).1.getD [])
          = (EC2.responsePairs r).length
      ∧ ((EC2.get_aggregated_tags ⟨.ok r, f⟩).1.getD []).all
          (fun e => !e.2.isEmpty) = true)
    ∧ (∀ rs : List AzResource,
      sumLens ((AzureVM.get_aggregated_vm_tags ⟨.ok rs⟩).1.getD [])
          = (azPairs rs).length
      ∧ ((AzureVM.get_aggregated_vm_tags ⟨.ok rs⟩).1.getD []).all
          (fun e => !e.2.isEmpty) = true) := by
  refine ⟨sumLens_aggregatePairs, allNonempty_aggregatePairs, fun r f => ?_, fun rs => ?_⟩
  · rw [ec2_agg_ok]
    exact ⟨sumLens_aggregatePairs _, allNonempty_aggregatePairs _⟩
  · simp only [AzureVM.get_aggregated_vm_tags, azAggregate_eq, Option.getD_some]
    exact ⟨sumLens_aggregatePairs _, allNonempty_aggregatePairs _⟩

/-- Claim C10: a resource whose tag collection is present but empty, or whose
Azure `tags` attribute is `None`, contributes nothing to the aggregation: the
result over a list with such a resource inserted equals the result over the
list without it, and the Azure components treat the empty tag map and the
absent attribute identically. -/
theorem C10_empty_tags_inert :
    (∀ xs ys : List SecurityGroup,
      SG.get_aggregated_sg_tags ⟨.ok ⟨xs ++ ⟨some []⟩ :: ys⟩⟩
        = SG.get_aggregated_sg_tags ⟨.ok ⟨xs ++ ys⟩⟩)
    ∧ (∀ xs ys : List SecurityGroup,
      SG.get_aggregated_sg_tags ⟨.ok ⟨xs ++ ⟨none⟩ :: ys⟩⟩
        = SG.get_aggregated_sg_tags ⟨.ok ⟨xs ++ ys⟩⟩)
    ∧ (∀ xs ys : List AzResource,
      AzureVM.get_aggregated_vm_tags ⟨.ok (xs ++ ⟨some []⟩ :: ys)⟩
        = AzureVM.get_aggregated_vm_tags ⟨.ok (xs ++ ys)⟩)
    ∧ (∀ xs ys : List AzResource,
      AzureVM.get_aggregated_vm_tags ⟨.ok (xs ++ ⟨none⟩ :: ys)⟩
        = AzureVM.get_aggregated_vm_tags ⟨.ok (xs ++ ys)⟩)
    ∧ (∀ xs ys : List AzResource,
      AzureVM.get_aggregated_vm_tags ⟨.ok (xs ++ ⟨some []⟩ :: ys)⟩
        = AzureVM.get_aggregated_vm_tags ⟨.ok (xs ++ ⟨none⟩ :: ys)⟩) := by
  refine ⟨fun xs ys => ?_, fun xs ys => ?_, fun xs ys => ?_, fun xs ys => ?_,
    fun xs ys => ?_⟩
  · rw [sg_agg_ok, sg_agg_ok]
    simp [SG.responseSgPairs, SG.sgPairs, tagPairs, List.map_append, List.flatten_append]
  · rw [sg_agg_ok, sg_agg_ok]
    simp [SG.responseSgPairs, SG.sgPairs, List.map_append, List.flatten_append]
  · simp [AzureVM.get_aggregated_vm_tags, azAggregate_eq, azPairs, azResourcePairs,
      List.map_append, List.flatten_append]
  · simp [AzureVM.get_aggregated_vm_tags, azAggregate_eq, azPairs, azResourcePairs,
      List.map_append, List.flatten_append]
  · simp [AzureVM.get_aggregated_vm_tags, azAggregate_eq, azPairs, azResourcePairs,
      List.map_append, List.flatten_append]

end CloudCounters
